import Mathlib

/-!
Verification development for the `bezier` repository (quadratic Bézier
sampling and polyline stroke tessellation).

Embedding conventions:
* all `f64`/`f32` arithmetic is modelled exactly over `ℚ`;
* `usize`/`u32` become `Nat`, with the `as u32` cast and `u32` addition
  modelled as `% 4294967296` where the source performs them;
* the square root inside `cgmath`'s `normalize` is modelled by `rat_sqrt`,
  which is the exact square root on rationals that have one and `0`
  otherwise (every concrete input evaluated in this file has an exact
  rational magnitude, so the model agrees with the source there);
* `panic!()` branches are modelled by a junk value (`panic_pair`); every
  theorem below stays inside the guarded index ranges, where the source
  cannot reach the panic;
* out-of-range `Vec` indexing is modelled by `List.getD _ _ vec2_zero`.
-/

/-- Model of `cgmath::Vector2<f64>` with exact rational coordinates. -/
structure Vec2 where
  x : ℚ
  y : ℚ
  deriving DecidableEq, Repr

def vec2 (x y : ℚ) : Vec2 := ⟨x, y⟩

def vec2_zero : Vec2 := ⟨0, 0⟩

instance : Add Vec2 := ⟨fun a b => ⟨a.x + b.x, a.y + b.y⟩⟩

instance : Sub Vec2 := ⟨fun a b => ⟨a.x - b.x, a.y - b.y⟩⟩

instance : HMul Vec2 ℚ Vec2 := ⟨fun v c => ⟨v.x * c, v.y * c⟩⟩

theorem Vec2.add_def (a b : Vec2) : a + b = ⟨a.x + b.x, a.y + b.y⟩ := rfl

theorem Vec2.sub_def (a b : Vec2) : a - b = ⟨a.x - b.x, a.y - b.y⟩ := rfl

theorem Vec2.smul_def (v : Vec2) (c : ℚ) : v * c = ⟨v.x * c, v.y * c⟩ := rfl

/-- Exact square root on `ℚ`: the (nonnegative) rational square root when
the argument is a perfect rational square, and `0` otherwise.  This models
the `f64` square root used by `cgmath`'s `normalize`; all concrete inputs
in this file have perfect-square magnitudes. -/
def rat_sqrt (q : ℚ) : ℚ :=
  let n := Nat.sqrt q.num.toNat
  let d := Nat.sqrt q.den
  if ((n : ℤ) * n = q.num ∧ d * d = q.den) then (n : ℚ) / (d : ℚ) else 0

/-- Model of `cgmath::InnerSpace::magnitude` for `Vector2<f64>`. -/
def Vec2.magnitude (v : Vec2) : ℚ := rat_sqrt (v.x * v.x + v.y * v.y)

/-- Model of `cgmath::InnerSpace::normalize`: `self * (1 / magnitude)`.
Division by a zero magnitude (which yields NaN in `f64`) collapses to the
zero vector under the rational convention `1 / 0 = 0`. -/
def Vec2.normalize (v : Vec2) : Vec2 := v * (1 / v.magnitude)

/-- Model of `Vertex` (src/vertex.rs).  The Rust struct stores `[f32; 2]`
positions; in the exact model the `f64 -> f32` narrowing performed by
`Vertex::new_f64` is the identity on coordinates. -/
structure Vertex where
  position : Vec2
  deriving DecidableEq, Repr

/-- Model of `Vertex::new_f64` (src/vertex.rs lines 12-16). -/
def Vertex.new_f64 (position : Vec2) : Vertex := ⟨position⟩

/-- Model of `RenderData` (src/vertex.rs lines 31-34): a mesh fragment.
Rust's `Vec<u32>` indices are modelled as `List ℕ`. -/
structure RenderData where
  vertices : List Vertex
  indices : List ℕ
  deriving DecidableEq, Repr

/-- Model of `RenderData::new` (src/vertex.rs lines 37-42). -/
def RenderData.new : RenderData := ⟨[], []⟩

/-- Model of `RenderData::merge` (src/vertex.rs lines 44-54).  The
`self.vertices.len() as u32` cast and the `u32` addition
`i + vertices_len` are modelled as arithmetic modulo `2^32`. -/
def RenderData.merge (self other : RenderData) : RenderData :=
  let vertices_len := self.vertices.length % 4294967296
  { vertices := self.vertices ++ other.vertices
    indices := self.indices ++ other.indices.map (fun i => (i + vertices_len) % 4294967296) }

/-- A `RenderData` whose indices all fit in `u32`; every fragment the Rust
program builds satisfies this by the typing of `Vec<u32>`. -/
def RenderData.indicesFit (d : RenderData) : Prop :=
  ∀ i ∈ d.indices, i < 4294967296

instance (d : RenderData) : Decidable d.indicesFit := by
  unfold RenderData.indicesFit; infer_instance

/-!
Model of the `geo` crate's segment-intersection primitive
(`geo::algorithm::line_intersection`, a port of JTS's
`RobustLineIntersector`), which `get_connection` delegates to.
`geo::Line` is a line *segment* given by two endpoints.
-/

namespace Geo

/-- Model of `geo::Orientation`. -/
inductive Orientation where
  | counterClockwise
  | clockwise
  | collinear
  deriving DecidableEq, Repr

/-- Model of `geo::Line<f64>`: a line segment between two points.  The
Rust field `end` is a Lean keyword and is rendered `endp`. -/
structure Line where
  start : Vec2
  endp : Vec2
  deriving DecidableEq, Repr

/-- Model of `geo::algorithm::line_intersection::LineIntersection`. -/
inductive LineIntersection where
  | singlePoint (intersection : Vec2) (is_proper : Bool)
  | collinear (intersection : Line)
  deriving DecidableEq, Repr

/-- Model of `geo::Rect` as produced by `Line::bounding_rect`. -/
structure Rect where
  min_x : ℚ
  min_y : ℚ
  max_x : ℚ
  max_y : ℚ
  deriving DecidableEq, Repr

/-- Model of `Line::bounding_rect`. -/
def Line.bounding_rect (l : Line) : Rect :=
  ⟨min l.start.x l.endp.x, min l.start.y l.endp.y,
   max l.start.x l.endp.x, max l.start.y l.endp.y⟩

/-- Model of `Rect: Intersects<Rect>`: inclusive interval overlap on both
axes (the geo implementation returns `false` iff one max is strictly below
the other min on some axis). -/
def Rect.intersects_rect (a b : Rect) : Prop :=
  b.min_x ≤ a.max_x ∧ a.min_x ≤ b.max_x ∧ b.min_y ≤ a.max_y ∧ a.min_y ≤ b.max_y

instance (a b : Rect) : Decidable (a.intersects_rect b) :=
  inferInstanceAs (Decidable
    (b.min_x ≤ a.max_x ∧ a.min_x ≤ b.max_x ∧ b.min_y ≤ a.max_y ∧ a.min_y ≤ b.max_y))

/-- Model of `Rect: Intersects<Coord>`: inclusive containment. -/
def Rect.intersects_coord (r : Rect) (c : Vec2) : Prop :=
  r.min_x ≤ c.x ∧ c.x ≤ r.max_x ∧ r.min_y ≤ c.y ∧ c.y ≤ r.max_y

instance (r : Rect) (c : Vec2) : Decidable (r.intersects_coord c) :=
  inferInstanceAs (Decidable
    (r.min_x ≤ c.x ∧ c.x ≤ r.max_x ∧ r.min_y ≤ c.y ∧ c.y ≤ r.max_y))

/-- Model of `RobustKernel::orient2d`: the exact sign of the cross product
`(q - p) × (r - p)`.  The robust f64 predicate computes exactly this sign,
so over exact rationals it is this definition. -/
def orient2d (p q r : Vec2) : Orientation :=
  let cross := (q.x - p.x) * (r.y - p.y) - (q.y - p.y) * (r.x - p.x)
  if 0 < cross then Orientation.counterClockwise
  else if cross < 0 then Orientation.clockwise
  else Orientation.collinear

/-- Squared form of `geo_types::private_utils::line_segment_distance`
(distance from a point to a segment).  `nearest_endpoint` only *compares*
these distances, and comparing squares is equivalent on nonnegatives, so
the square root of the source is dropped. -/
def line_segment_distance_sq (point start endp : Vec2) : ℚ :=
  if start = endp then
    (point.x - start.x) ^ 2 + (point.y - start.y) ^ 2
  else
    let dx := endp.x - start.x
    let dy := endp.y - start.y
    let d_squared := dx * dx + dy * dy
    let r := ((point.x - start.x) * dx + (point.y - start.y) * dy) / d_squared
    if r ≤ 0 then (point.x - start.x) ^ 2 + (point.y - start.y) ^ 2
    else if 1 ≤ r then (point.x - endp.x) ^ 2 + (point.y - endp.y) ^ 2
    else
      let s := ((start.y - point.y) * dx - (start.x - point.x) * dy) / d_squared
      s * s * d_squared

/-- Model of geo's `nearest_endpoint`: the endpoint of one segment nearest
to the other segment, mirroring the source's sequential strict-`<`
minimum updates. -/
def nearest_endpoint (p q : Line) : Vec2 :=
  let min_dist0 := line_segment_distance_sq p.start q.start q.endp
  let dist2 := line_segment_distance_sq p.endp q.start q.endp
  let carry1 := if dist2 < min_dist0 then (p.endp, dist2) else (p.start, min_dist0)
  let dist3 := line_segment_distance_sq q.start p.start p.endp
  let carry2 := if dist3 < carry1.2 then (q.start, dist3) else carry1
  let dist4 := line_segment_distance_sq q.endp p.start p.endp
  if dist4 < carry2.2 then q.endp else carry2.1

/-- Model of geo's `raw_line_intersection`: homogeneous-coordinate
intersection of the two supporting lines, after conditioning coordinates
by the midpoint of the bounding-box overlap.  The f64 source detects
parallel supporting lines by the division yielding NaN/infinity; exactly,
that is the zero denominator `w = 0`. -/
def raw_line_intersection (p q : Line) : Option Vec2 :=
  let p_min_x := min p.start.x p.endp.x
  let p_min_y := min p.start.y p.endp.y
  let p_max_x := max p.start.x p.endp.x
  let p_max_y := max p.start.y p.endp.y
  let q_min_x := min q.start.x q.endp.x
  let q_min_y := min q.start.y q.endp.y
  let q_max_x := max q.start.x q.endp.x
  let q_max_y := max q.start.y q.endp.y
  let mid_x := (max p_min_x q_min_x + min p_max_x q_max_x) / 2
  let mid_y := (max p_min_y q_min_y + min p_max_y q_max_y) / 2
  let p1x := p.start.x - mid_x
  let p1y := p.start.y - mid_y
  let p2x := p.endp.x - mid_x
  let p2y := p.endp.y - mid_y
  let q1x := q.start.x - mid_x
  let q1y := q.start.y - mid_y
  let q2x := q.endp.x - mid_x
  let q2y := q.endp.y - mid_y
  let px := p1y - p2y
  let py := p2x - p1x
  let pw := p1x * p2y - p2x * p1y
  let qx := q1y - q2y
  let qy := q2x - q1x
  let qw := q1x * q2y - q2x * q1y
  let xw := py * qw - qy * pw
  let yw := qx * pw - px * qw
  let w := px * qy - qx * py
  if w = 0 then none
  else some ⟨xw / w + mid_x, yw / w + mid_y⟩

/-- Model of geo's `proper_intersection`: the raw supporting-line
intersection, replaced by the nearest endpoint when the raw computation
fails or the point falls outside either bounding box. -/
def proper_intersection (p q : Line) : Vec2 :=
  let intersection := (raw_line_intersection p q).getD (nearest_endpoint p q)
  if ¬(p.bounding_rect.intersects_coord intersection ∧
       q.bounding_rect.intersects_coord intersection) then
    nearest_endpoint p q
  else intersection

/-- Model of geo's `collinear_intersection`, mirroring the source's match
arms (in order, with their guards) over the four inclusive bounding-box
containment tests. -/
def collinear_intersection (p q : Line) : Option LineIntersection :=
  let p_bounds := p.bounding_rect
  let q_bounds := q.bounding_rect
  let c1 := p_bounds.intersects_coord q.start
  let c2 := p_bounds.intersects_coord q.endp
  let c3 := q_bounds.intersects_coord p.start
  let c4 := q_bounds.intersects_coord p.endp
  if c1 ∧ c2 then some (LineIntersection.collinear q)
  else if c3 ∧ c4 then some (LineIntersection.collinear p)
  else if c1 ∧ ¬c2 ∧ c3 ∧ ¬c4 ∧ q.start = p.start then
    some (LineIntersection.singlePoint q.start false)
  else if c1 ∧ c3 then some (LineIntersection.collinear ⟨q.start, p.start⟩)
  else if c1 ∧ ¬c2 ∧ ¬c3 ∧ c4 ∧ q.start = p.endp then
    some (LineIntersection.singlePoint q.start false)
  else if c1 ∧ c4 then some (LineIntersection.collinear ⟨q.start, p.endp⟩)
  else if ¬c1 ∧ c2 ∧ c3 ∧ ¬c4 ∧ q.endp = p.start then
    some (LineIntersection.singlePoint q.endp false)
  else if c2 ∧ c3 then some (LineIntersection.collinear ⟨q.endp, p.start⟩)
  else if ¬c1 ∧ c2 ∧ ¬c3 ∧ c4 ∧ q.endp = p.endp then
    some (LineIntersection.singlePoint q.endp false)
  else if c2 ∧ c4 then some (LineIntersection.collinear ⟨q.endp, p.endp⟩)
  else none

/-- Model of `geo::algorithm::line_intersection::line_intersection`: the
JTS robust *segment* intersection.  Early `return None` paths become the
`if ... then none` chain. -/
def line_intersection (p q : Line) : Option LineIntersection :=
  if ¬p.bounding_rect.intersects_rect q.bounding_rect then none
  else
    let p_q1 := orient2d p.start p.endp q.start
    let p_q2 := orient2d p.start p.endp q.endp
    if (p_q1 = Orientation.clockwise ∧ p_q2 = Orientation.clockwise) ∨
       (p_q1 = Orientation.counterClockwise ∧ p_q2 = Orientation.counterClockwise) then none
    else
      let q_p1 := orient2d q.start q.endp p.start
      let q_p2 := orient2d q.start q.endp p.endp
      if (q_p1 = Orientation.clockwise ∧ q_p2 = Orientation.clockwise) ∨
         (q_p1 = Orientation.counterClockwise ∧ q_p2 = Orientation.counterClockwise) then none
      else if p_q1 = Orientation.collinear ∧ p_q2 = Orientation.collinear ∧
              q_p1 = Orientation.collinear ∧ q_p2 = Orientation.collinear then
        collinear_intersection p q
      else if p_q1 = Orientation.collinear ∨ p_q2 = Orientation.collinear ∨
              q_p1 = Orientation.collinear ∨ q_p2 = Orientation.collinear then
        let intersection :=
          if p.start = q.start ∨ p.start = q.endp then p.start
          else if p.endp = q.start ∨ p.endp = q.endp then p.endp
          else if p_q1 = Orientation.collinear then q.start
          else if p_q2 = Orientation.collinear then q.endp
          else if q_p1 = Orientation.collinear then p.start
          else p.endp
        some (LineIntersection.singlePoint intersection false)
      else
        some (LineIntersection.singlePoint (proper_intersection p q) true)

end Geo

theorem merge_vertices (a b : RenderData) :
    (a.merge b).vertices = a.vertices ++ b.vertices := rfl

theorem merge_indices (a b : RenderData) :
    (a.merge b).indices =
      a.indices ++ b.indices.map
        (fun i => (i + a.vertices.length % 4294967296) % 4294967296) := rfl

/-- C3 — `RenderData::merge` is associative and has `RenderData::new` as a
two-sided identity; vertices are only concatenated and indices are only
rebased by (wrapping `u32`) integer addition.  The hypothesis records that
`A`'s indices are `u32` values, which Rust guarantees by typing. -/
theorem claim_C3_merge_assoc_identity (A B C : RenderData)
    (hA : A.indicesFit) :
    (A.merge B).merge C = A.merge (B.merge C) ∧
      A.merge RenderData.new = A ∧ RenderData.new.merge A = A := by
  obtain ⟨av, ai⟩ := A
  obtain ⟨bv, bi⟩ := B
  obtain ⟨cv, ci⟩ := C
  refine ⟨?_, ?_, ?_⟩
  · simp only [RenderData.merge, List.length_append, List.map_append,
      List.map_map, List.append_assoc, RenderData.mk.injEq, true_and]
    have hfun : (fun i => (i + (av.length + bv.length) % 4294967296) % 4294967296)
        = ((fun i => (i + av.length % 4294967296) % 4294967296) ∘
            fun i => (i + bv.length % 4294967296) % 4294967296) := by
      funext i
      simp only [Function.comp_apply]
      omega
    rw [hfun]
  · simp [RenderData.merge, RenderData.new]
  · simp only [RenderData.merge, RenderData.new, List.length_nil,
      Nat.zero_mod, List.nil_append, RenderData.mk.injEq, true_and]
    have h1 : ∀ i ∈ ai, (i + 0) % 4294967296 = i := by
      intro i hi
      have := hA i hi
      omega
    rw [List.map_congr_left h1]
    exact List.map_id' ai

/-- Witness for C3 at concrete fragments. -/
theorem claim_C3_merge_assoc_identity_witness :
    let A : RenderData := ⟨[⟨⟨1, 2⟩⟩, ⟨⟨3, 4⟩⟩], [0, 1, 0]⟩
    let B : RenderData := ⟨[⟨⟨5, 6⟩⟩], [0, 0, 0]⟩
    let C : RenderData := ⟨[⟨⟨7, 8⟩⟩, ⟨⟨9, 10⟩⟩], [1, 0, 1]⟩
    (A.merge B).merge C = A.merge (B.merge C) ∧
      A.merge RenderData.new = A ∧ RenderData.new.merge A = A :=
  claim_C3_merge_assoc_identity _ _ _ (by decide)

/-!  Model of src/curve.rs. -/

/-- Model of `Bezier` (src/curve.rs lines 11-15).  The Rust field `end` is
a Lean keyword and is rendered `endp`. -/
structure Bezier where
  start : Vec2
  middle : Vec2
  endp : Vec2
  deriving DecidableEq, Repr

/-- Model of `Bezier::lerp` (src/curve.rs lines 36-38). -/
def Bezier.lerp (start endp : Vec2) (t : ℚ) : Vec2 :=
  endp * t + start * (1 - t)

/-- Model of `Bezier::eval` (src/curve.rs lines 30-34). -/
def Bezier.eval (self : Bezier) (t : ℚ) : Vec2 :=
  let a := Bezier.lerp self.start self.middle t
  let b := Bezier.lerp self.middle self.endp t
  Bezier.lerp a b t

/-- Model of `PolyLine` (src/curve.rs lines 41-43). -/
structure PolyLine where
  points : List Vec2
  deriving DecidableEq, Repr

/-- Model of `Bezier::subdivide` (src/curve.rs lines 18-24).  The `usize`
difference `count - 1` is `Nat` truncated subtraction; the closure only
evaluates it when the range `0..count` is nonempty.  For `count = 1` the
f64 source divides `0.0/0.0` into NaN, which the exact model absorbs as
`0/0 = 0` (see claim C7). -/
def Bezier.subdivide (self : Bezier) (count : ℕ) : PolyLine :=
  ⟨(List.range count).map (fun (i : ℕ) => self.eval ((i : ℚ) / ((count - 1 : ℕ) : ℚ)))⟩

namespace PolyLine

/-- Junk value standing in for the `panic!()` branches of
`get_start_points` / `get_end_points`; every theorem below stays inside
the guarded index ranges, where the source cannot reach the panic. -/
def panic_pair : Vec2 × Vec2 := (vec2_zero, vec2_zero)

/-- Model of `PolyLine::offset_by_direction` (src/curve.rs lines 193-198). -/
def offset_by_direction (point direction : Vec2) : Vec2 × Vec2 :=
  (point + vec2 direction.y (-direction.x),
   point + vec2 (-direction.y) direction.x)

/-- Model of `PolyLine::get_start_points` (src/curve.rs lines 163-171). -/
def get_start_points (self : PolyLine) (i : ℕ) (width : ℚ) : Vec2 × Vec2 :=
  if i + 1 = self.points.length then panic_pair
  else
    offset_by_direction (self.points.getD i vec2_zero)
      ((self.points.getD (i + 1) vec2_zero - self.points.getD i vec2_zero).normalize * width)

/-- Model of `PolyLine::get_end_points` (src/curve.rs lines 173-181). -/
def get_end_points (self : PolyLine) (i : ℕ) (width : ℚ) : Vec2 × Vec2 :=
  if i = 0 then panic_pair
  else
    offset_by_direction (self.points.getD i vec2_zero)
      ((self.points.getD i vec2_zero - self.points.getD (i - 1) vec2_zero).normalize * width)

/-- Model of `PolyLine::line` (src/curve.rs lines 183-191). -/
def line (start endp : Vec2) : Geo.Line := ⟨start, endp⟩

/-- The pair of per-side intersection results computed inside
`PolyLine::get_connection` (src/curve.rs lines 131-150): component 1 is
the test between the two side-`.0` offset boundaries, component 2 between
the two side-`.1` offset boundaries. -/
def connection_intersections (self : PolyLine) (i : ℕ) (width : ℚ) :
    Option Geo.LineIntersection × Option Geo.LineIntersection :=
  let start_points := self.get_start_points (i - 1) width
  let end_points := self.get_end_points i width
  let next_start_points := self.get_start_points i width
  let next_end_points := self.get_end_points (i + 1) width
  let lines := (line start_points.1 end_points.1, line start_points.2 end_points.2)
  let next_lines :=
    (line next_start_points.1 next_end_points.1, line next_start_points.2 next_end_points.2)
  (Geo.line_intersection lines.1 next_lines.1, Geo.line_intersection lines.2 next_lines.2)

/-- Model of the final match of `PolyLine::get_connection`
(src/curve.rs lines 152-160). -/
def get_connection (self : PolyLine) (i : ℕ) (width : ℚ) : Option (Vec2 × Bool) :=
  match self.connection_intersections i width with
  | (some (Geo.LineIntersection.singlePoint intersection _), none) => some (intersection, false)
  | (none, some (Geo.LineIntersection.singlePoint intersection _)) => some (intersection, true)
  | _ => none

/-- Model of `PolyLine::get_adjusted_start_points` (src/curve.rs lines 107-117). -/
def get_adjusted_start_points (self : PolyLine) (i : ℕ) (width : ℚ) : Vec2 × Vec2 :=
  let start_points := self.get_start_points i width
  if i = 0 then start_points
  else
    match self.get_connection i width with
    | some (intersection, false) => (intersection, start_points.2)
    | some (intersection, true) => (start_points.1, intersection)
    | none => start_points

/-- Model of `PolyLine::get_adjusted_end_points` (src/curve.rs lines 119-129). -/
def get_adjusted_end_points (self : PolyLine) (i : ℕ) (width : ℚ) : Vec2 × Vec2 :=
  let end_points := self.get_end_points i width
  if i + 1 = self.points.length then end_points
  else
    match self.get_connection i width with
    | some (intersection, false) => (intersection, end_points.2)
    | some (intersection, true) => (end_points.1, intersection)
    | none => end_points

/-- Model of `PolyLine::get_segment_render_data` (src/curve.rs lines 64-74). -/
def get_segment_render_data (self : PolyLine) (i : ℕ) (width : ℚ) : RenderData :=
  let start_points := self.get_adjusted_start_points (i - 1) width
  let end_points := self.get_adjusted_end_points i width
  { vertices :=
      [start_points.1, start_points.2, end_points.1, end_points.2].map Vertex.new_f64
    indices := [0, 2, 3, 0, 3, 1] }

/-- Model of `PolyLine::get_connection_render_data` (src/curve.rs lines 76-105). -/
def get_connection_render_data (self : PolyLine) (i : ℕ) (width : ℚ) : RenderData :=
  let vertices :=
    (match self.get_connection i width with
      | some (intersection, false) =>
          [(self.get_end_points i width).2, intersection, (self.get_start_points i width).2]
      | some (intersection, true) =>
          [(self.get_end_points i width).1, intersection, (self.get_start_points i width).1]
      | none => []).map Vertex.new_f64
  { vertices := vertices
    indices := if vertices.isEmpty then [] else [0, 1, 2] }

/-- Model of `PolyLine::get_render_data` (src/curve.rs lines 50-62).  The
`1..len` and `1..len-1` loops accumulating into `result` become folds over
`List.range'`; `usize` subtraction is `Nat` truncated subtraction (for an
empty polyline the Rust `len - 1` underflow panics in the second loop
bound, so the source produces no mesh there; the model's empty range
yields the empty mesh). -/
def get_render_data (self : PolyLine) (width : ℚ) : RenderData :=
  let result := (List.range' 1 (self.points.length - 1)).foldl
    (fun result i => result.merge (self.get_segment_render_data i width)) RenderData.new
  (List.range' 1 (self.points.length - 1 - 1)).foldl
    (fun result i => result.merge (self.get_connection_render_data i width)) result

end PolyLine

/-!  Mesh validity (claim C4). -/

/-- Mesh validity: every index addresses an existing vertex and the index
list splits into whole triangles. -/
def RenderData.meshValid (d : RenderData) : Prop :=
  (∀ i ∈ d.indices, i < d.vertices.length) ∧ d.indices.length % 3 = 0

theorem meshValid_merge {a b : RenderData} (ha : a.meshValid) (hb : b.meshValid) :
    (a.merge b).meshValid := by
  obtain ⟨ha1, ha2⟩ := ha
  obtain ⟨hb1, hb2⟩ := hb
  constructor
  · intro i hi
    simp only [RenderData.merge, List.mem_append, List.mem_map] at hi
    rcases hi with hi | ⟨j, hj, rfl⟩
    · have := ha1 i hi
      simp only [RenderData.merge, List.length_append]
      omega
    · have := hb1 j hj
      simp only [RenderData.merge, List.length_append]
      omega
  · simp only [RenderData.merge, List.length_append, List.length_map]
    omega

theorem meshValid_new : RenderData.new.meshValid := by
  constructor
  · intro i hi
    simp [RenderData.new] at hi
  · rfl

theorem meshValid_segment (l : PolyLine) (i : ℕ) (w : ℚ) :
    (l.get_segment_render_data i w).meshValid := by
  constructor
  · intro j hj
    simp only [PolyLine.get_segment_render_data, List.mem_cons, List.not_mem_nil,
      or_false] at hj
    simp only [PolyLine.get_segment_render_data, List.length_map, List.length_cons,
      List.length_nil]
    omega
  · simp [PolyLine.get_segment_render_data]

theorem meshValid_connection (l : PolyLine) (i : ℕ) (w : ℚ) :
    (l.get_connection_render_data i w).meshValid := by
  rcases h : l.get_connection i w with _ | ⟨pt, side⟩
  · constructor <;>
      simp [PolyLine.get_connection_render_data, h, RenderData.meshValid]
  · rcases side <;> constructor <;>
      · simp [PolyLine.get_connection_render_data, h, RenderData.meshValid]
        try omega

theorem meshValid_foldl (f : ℕ → RenderData) (ls : List ℕ) (init : RenderData)
    (hinit : init.meshValid) (hf : ∀ i, (f i).meshValid) :
    (ls.foldl (fun r i => r.merge (f i)) init).meshValid := by
  induction ls generalizing init with
  | nil => exact hinit
  | cons a as ih => exact ih _ (meshValid_merge hinit (hf a))

/-- C4 — for every polyline and positive width, the tessellated mesh is
valid: every index is strictly below the vertex count and the index count
is a multiple of 3. -/
theorem claim_C4_mesh_validity (l : PolyLine) (width : ℚ) (hw : 0 < width) :
    (∀ i ∈ (l.get_render_data width).indices,
        i < (l.get_render_data width).vertices.length) ∧
      (l.get_render_data width).indices.length % 3 = 0 := by
  have h : (l.get_render_data width).meshValid := by
    unfold PolyLine.get_render_data
    exact meshValid_foldl _ _ _
      (meshValid_foldl _ _ _ meshValid_new (fun i => meshValid_segment l i width))
      (fun i => meshValid_connection l i width)
  exact h

/-- Witness for C4 on a concrete polyline and width. -/
theorem claim_C4_mesh_validity_witness :
    (0 : ℚ) < 1 ∧
      ((∀ i ∈ (PolyLine.get_render_data ⟨[⟨0, 0⟩, ⟨1, 0⟩, ⟨1, 1⟩]⟩ 1).indices,
          i < (PolyLine.get_render_data ⟨[⟨0, 0⟩, ⟨1, 0⟩, ⟨1, 1⟩]⟩ 1).vertices.length) ∧
        (PolyLine.get_render_data ⟨[⟨0, 0⟩, ⟨1, 0⟩, ⟨1, 1⟩]⟩ 1).indices.length % 3 = 0) :=
  ⟨by norm_num, claim_C4_mesh_validity ⟨[⟨0, 0⟩, ⟨1, 0⟩, ⟨1, 1⟩]⟩ 1 (by norm_num)⟩

/-!  Bézier sampling (claims C6, C7). -/

theorem Bezier.eval_zero (b : Bezier) : b.eval 0 = b.start := by
  simp [Bezier.eval, Bezier.lerp, Vec2.smul_def, Vec2.add_def]

theorem Bezier.eval_one (b : Bezier) : b.eval 1 = b.endp := by
  simp [Bezier.eval, Bezier.lerp, Vec2.smul_def, Vec2.add_def]

/-- C6 — `subdivide(count)` with `count ≥ 2` yields exactly `count` points,
starting at the curve's start point and ending at its end point; in
particular `subdivide(2)` is exactly the endpoint pair. -/
theorem claim_C6_subdivide_endpoints (b : Bezier) (count : ℕ) (h : 2 ≤ count) :
    (b.subdivide count).points.length = count ∧
      (b.subdivide count).points.head? = some b.start ∧
      (b.subdivide count).points.getLast? = some b.endp ∧
      (b.subdivide 2).points = [b.start, b.endp] := by
  obtain ⟨n, rfl⟩ : ∃ n, count = n + 2 := ⟨count - 2, by omega⟩
  refine ⟨by simp only [Bezier.subdivide, List.length_map, List.length_range], ?_, ?_, ?_⟩
  · rw [Bezier.subdivide, List.range_succ_eq_map]
    simp [Bezier.eval_zero]
  · rw [Bezier.subdivide, List.range_succ, List.map_append]
    simp only [List.map_cons, List.map_nil]
    rw [List.getLast?_append_cons]
    have hne : ((n : ℚ) + 1) ≠ 0 := by positivity
    simp [Nat.add_sub_cancel, div_self hne, Bezier.eval_one]
  · rw [Bezier.subdivide, show List.range 2 = [0, 1] from rfl]
    simp only [List.map_cons, List.map_nil]
    norm_num [Bezier.eval_zero, Bezier.eval_one]

/-- Witness for C6 at a concrete curve and count. -/
theorem claim_C6_subdivide_endpoints_witness :
    2 ≤ 4 ∧
      ((Bezier.subdivide ⟨⟨0, 0⟩, ⟨1, 2⟩, ⟨3, 1⟩⟩ 4).points.length = 4 ∧
        (Bezier.subdivide ⟨⟨0, 0⟩, ⟨1, 2⟩, ⟨3, 1⟩⟩ 4).points.head? = some ⟨0, 0⟩ ∧
        (Bezier.subdivide ⟨⟨0, 0⟩, ⟨1, 2⟩, ⟨3, 1⟩⟩ 4).points.getLast? = some ⟨3, 1⟩ ∧
        (Bezier.subdivide ⟨⟨0, 0⟩, ⟨1, 2⟩, ⟨3, 1⟩⟩ 2).points = [⟨0, 0⟩, ⟨3, 1⟩]) :=
  ⟨by omega, claim_C6_subdivide_endpoints ⟨⟨0, 0⟩, ⟨1, 2⟩, ⟨3, 1⟩⟩ 4 (by omega)⟩

/-- C7 — contrary to the claim, `subdivide` signals no error for
`count < 2`: the function's return type has no error channel at all.
`subdivide(1)` evaluates the curve at the parameter `0/0` (NaN in the f64
source, absorbed as `0` by the exact model, so the single emitted point is
the start point) and `subdivide(0)` returns an empty polyline. -/
theorem claim_C7_subdivide_no_error :
    (Bezier.subdivide ⟨⟨0, 0⟩, ⟨1, 2⟩, ⟨3, 1⟩⟩ 1).points = [⟨0, 0⟩] ∧
      (Bezier.subdivide ⟨⟨0, 0⟩, ⟨1, 2⟩, ⟨3, 1⟩⟩ 0).points = [] := by
  constructor
  · rw [Bezier.subdivide, show List.range 1 = [0] from rfl]
    simp only [List.map_cons, List.map_nil]
    norm_num [Bezier.eval_zero]
  · rfl

/-!  Tessellator error handling (claims C5, C8). -/

/-- C5 — contrary to the claim, a polyline with two identical consecutive
points is tessellated into a full segment quad, not rejected with a typed
error: `get_render_data` has no error channel.  In the f64 source the
zero-length direction normalizes to NaN and the four emitted vertices are
NaN-poisoned; in the exact model the division by the zero magnitude
collapses the offset to zero, so all four vertices sit on the duplicated
point. -/
theorem claim_C5_degenerate_segment_mesh :
    PolyLine.get_render_data ⟨[⟨1, 1⟩, ⟨1, 1⟩]⟩ 2 =
      { vertices := [⟨⟨1, 1⟩⟩, ⟨⟨1, 1⟩⟩, ⟨⟨1, 1⟩⟩, ⟨⟨1, 1⟩⟩]
        indices := [0, 2, 3, 0, 3, 1] } := by
  norm_num [PolyLine.get_render_data, PolyLine.get_segment_render_data,
    PolyLine.get_adjusted_start_points, PolyLine.get_adjusted_end_points,
    PolyLine.get_start_points, PolyLine.get_end_points, PolyLine.offset_by_direction,
    PolyLine.panic_pair, Vec2.normalize, Vec2.magnitude, rat_sqrt,
    RenderData.merge, RenderData.new, Vertex.new_f64, vec2, vec2_zero,
    Vec2.smul_def, Vec2.add_def, Vec2.sub_def, List.range']

/-- C8 — contrary to the claim, a polyline with fewer than 2 points is not
rejected with a typed malformed-polyline error: for a single-point
polyline both loops of `get_render_data` are empty and the function
returns the empty mesh (and for the empty polyline the source's
`len - 1` underflow panics rather than returning an error). -/
theorem claim_C8_single_point_no_error :
    PolyLine.get_render_data ⟨[⟨5, 7⟩]⟩ 3 = RenderData.new := rfl

/-!  Concrete right-angle joint used by claims C1 and C2: polyline
((0,0),(1,0),(1,1)) with width 1. -/

/-- The right-angle polyline of the spec's worked example. -/
def right_angle : PolyLine := ⟨[⟨0, 0⟩, ⟨1, 0⟩, ⟨1, 1⟩]⟩

theorem normalize_e1 : Vec2.normalize ⟨1, 0⟩ = ⟨1, 0⟩ := by
  norm_num [Vec2.normalize, Vec2.magnitude, rat_sqrt, Vec2.smul_def]

theorem normalize_e2 : Vec2.normalize ⟨0, 1⟩ = ⟨0, 1⟩ := by
  norm_num [Vec2.normalize, Vec2.magnitude, rat_sqrt, Vec2.smul_def]

theorem right_angle_start0 : right_angle.get_start_points 0 1 = (⟨0, -1⟩, ⟨0, 1⟩) := by
  norm_num [right_angle, PolyLine.get_start_points, PolyLine.offset_by_direction,
    List.getD, Vec2.sub_def, normalize_e1, Vec2.smul_def, Vec2.add_def, vec2]

theorem right_angle_end1 : right_angle.get_end_points 1 1 = (⟨1, -1⟩, ⟨1, 1⟩) := by
  norm_num [right_angle, PolyLine.get_end_points, PolyLine.offset_by_direction,
    List.getD, Vec2.sub_def, normalize_e1, Vec2.smul_def, Vec2.add_def, vec2]

theorem right_angle_start1 : right_angle.get_start_points 1 1 = (⟨2, 0⟩, ⟨0, 0⟩) := by
  norm_num [right_angle, PolyLine.get_start_points, PolyLine.offset_by_direction,
    List.getD, Vec2.sub_def, normalize_e2, Vec2.smul_def, Vec2.add_def, vec2]

theorem right_angle_end2 : right_angle.get_end_points 2 1 = (⟨2, 1⟩, ⟨0, 1⟩) := by
  norm_num [right_angle, PolyLine.get_end_points, PolyLine.offset_by_direction,
    List.getD, Vec2.sub_def, normalize_e2, Vec2.smul_def, Vec2.add_def, vec2]

/-- Side `.0` at the right-angle joint: the two offset boundary segments
(y = -1 for the first segment, x = 2 for the second) have disjoint
bounding boxes, so the segment test answers `none`. -/
theorem right_angle_li0 :
    Geo.line_intersection ⟨⟨0, -1⟩, ⟨1, -1⟩⟩ ⟨⟨2, 0⟩, ⟨2, 1⟩⟩ = none := by
  norm_num [Geo.line_intersection, Geo.Line.bounding_rect, Geo.Rect.intersects_rect,
    min_def, max_def]

/-- Side `.1` at the right-angle joint: the two offset boundary segments
touch at the shared endpoint (0,1), which the segment test reports as an
improper single point. -/
theorem right_angle_li1 :
    Geo.line_intersection ⟨⟨0, 1⟩, ⟨1, 1⟩⟩ ⟨⟨0, 0⟩, ⟨0, 1⟩⟩ =
      some (Geo.LineIntersection.singlePoint ⟨0, 1⟩ false) := by
  norm_num [Geo.line_intersection, Geo.Line.bounding_rect, Geo.Rect.intersects_rect,
    Geo.orient2d, min_def, max_def, Vec2.mk.injEq]
  decide

theorem right_angle_ci :
    right_angle.connection_intersections 1 1 =
      (none, some (Geo.LineIntersection.singlePoint ⟨0, 1⟩ false)) := by
  have h0 : (1 : ℕ) - 1 = 0 := rfl
  have h2 : (1 : ℕ) + 1 = 2 := rfl
  simp only [PolyLine.connection_intersections, PolyLine.line, h0, h2,
    right_angle_start0, right_angle_end1, right_angle_start1, right_angle_end2]
  rw [right_angle_li0, right_angle_li1]

theorem right_angle_get_connection :
    right_angle.get_connection 1 1 = some (⟨0, 1⟩, true) := by
  unfold PolyLine.get_connection
  rw [right_angle_ci]

/-!  Claim C1: nature of the per-side intersection test. -/

/-- C1 (amended) — the tessellator's per-side test is a *segment*
intersection, not an infinite-line intersection: whenever the two
same-side finite offset boundary segments at a joint have disjoint
bounding boxes, the side's test yields no intersection — even when the
supporting lines are non-parallel, as at the outer corner of a convex
turn. -/
theorem claim_C1_side_test_is_segment_test (l : PolyLine) (i : ℕ) (w : ℚ)
    (h : ¬(PolyLine.line (l.get_start_points (i - 1) w).1
            (l.get_end_points i w).1).bounding_rect.intersects_rect
          (PolyLine.line (l.get_start_points i w).1
            (l.get_end_points (i + 1) w).1).bounding_rect) :
    (l.connection_intersections i w).1 = none := by
  simp only [PolyLine.connection_intersections]
  rw [Geo.line_intersection]
  simp only [h, if_true, not_false_iff]

/-- Witness for the amended C1 at the right-angle joint, side `.0`. -/
theorem claim_C1_side_test_is_segment_test_witness :
    ¬(PolyLine.line (right_angle.get_start_points (1 - 1) 1).1
        (right_angle.get_end_points 1 1).1).bounding_rect.intersects_rect
      (PolyLine.line (right_angle.get_start_points 1 1).1
        (right_angle.get_end_points (1 + 1) 1).1).bounding_rect ∧
      (right_angle.connection_intersections 1 1).1 = none := by
  have h : ¬(PolyLine.line (right_angle.get_start_points (1 - 1) 1).1
        (right_angle.get_end_points 1 1).1).bounding_rect.intersects_rect
      (PolyLine.line (right_angle.get_start_points 1 1).1
        (right_angle.get_end_points (1 + 1) 1).1).bounding_rect := by
    have h0 : (1 : ℕ) - 1 = 0 := rfl
    have h2 : (1 : ℕ) + 1 = 2 := rfl
    simp only [h0, h2, right_angle_start0, right_angle_end1, right_angle_start1,
      right_angle_end2, PolyLine.line]
    norm_num [Geo.Line.bounding_rect, Geo.Rect.intersects_rect, min_def, max_def]
  exact ⟨h, claim_C1_side_test_is_segment_test right_angle 1 1 h⟩

/-- C1 counterexample — at the interior joint of the right-angle polyline
((0,0),(1,0),(1,1)) with width 1, the side-`.0` offset boundary lines of
the two segments are non-parallel (their direction cross product is 1),
yet the tessellator's per-side test yields no intersection point: the
claim that non-parallel boundary lines always produce the infinite-line
intersection point is false of the code. -/
theorem claim_C1_counterexample :
    (((right_angle.get_end_points 1 1).1.x - (right_angle.get_start_points 0 1).1.x) *
          ((right_angle.get_end_points 2 1).1.y - (right_angle.get_start_points 1 1).1.y) -
        ((right_angle.get_end_points 1 1).1.y - (right_angle.get_start_points 0 1).1.y) *
          ((right_angle.get_end_points 2 1).1.x - (right_angle.get_start_points 1 1).1.x) ≠ 0) ∧
      (right_angle.connection_intersections 1 1).1 = none := by
  constructor
  · norm_num [right_angle_start0, right_angle_end1, right_angle_start1, right_angle_end2]
  · rw [right_angle_ci]

/-!  Claim C2: joint snapping and fill triangle. -/

/-- C2 — at an interior joint where the per-side tests yield a single
point on exactly one side and none on the other (which is exactly when
`get_connection` answers `some`), both adjacent segments' offset points on
that side are snapped to the intersection (the other components are kept),
and the joint fragment is exactly the fill triangle (other-side end point,
intersection, other-side start point) with indices [0, 1, 2]. -/
theorem claim_C2_joint_snap_and_fill (l : PolyLine) (i : ℕ) (width : ℚ)
    (pt : Vec2) (side : Bool)
    (hi0 : i ≠ 0) (hiN : i + 1 ≠ l.points.length)
    (h : l.get_connection i width = some (pt, side)) :
    l.get_adjusted_end_points i width =
      (if side then ((l.get_end_points i width).1, pt)
       else (pt, (l.get_end_points i width).2)) ∧
      l.get_adjusted_start_points i width =
        (if side then ((l.get_start_points i width).1, pt)
         else (pt, (l.get_start_points i width).2)) ∧
      l.get_connection_render_data i width =
        { vertices :=
            [Vertex.new_f64 (if side then (l.get_end_points i width).1
                             else (l.get_end_points i width).2),
             Vertex.new_f64 pt,
             Vertex.new_f64 (if side then (l.get_start_points i width).1
                             else (l.get_start_points i width).2)]
          indices := [0, 1, 2] } := by
  cases side <;> refine ⟨?_, ?_, ?_⟩ <;>
    simp only [PolyLine.get_adjusted_end_points, PolyLine.get_adjusted_start_points,
      PolyLine.get_connection_render_data, if_neg hiN, if_neg hi0, h, List.map_cons,
      List.map_nil, List.isEmpty_cons, Bool.false_eq_true, eq_self_iff_true,
      if_false, if_true]

/-- Witness for C2 at the right-angle joint: the side-`.1` (inner) points
of both segments are snapped to (0,1) and the fill triangle spans the
side-`.0` points with the intersection as apex. -/
theorem claim_C2_joint_snap_and_fill_witness :
    right_angle.get_connection 1 1 = some (⟨0, 1⟩, true) ∧
      (right_angle.get_adjusted_end_points 1 1 =
          ((right_angle.get_end_points 1 1).1, ⟨0, 1⟩) ∧
        right_angle.get_adjusted_start_points 1 1 =
          ((right_angle.get_start_points 1 1).1, ⟨0, 1⟩) ∧
        right_angle.get_connection_render_data 1 1 =
          { vertices :=
              [Vertex.new_f64 (right_angle.get_end_points 1 1).1,
               Vertex.new_f64 ⟨0, 1⟩,
               Vertex.new_f64 (right_angle.get_start_points 1 1).1]
            indices := [0, 1, 2] }) :=
  ⟨right_angle_get_connection,
    claim_C2_joint_snap_and_fill right_angle 1 1 ⟨0, 1⟩ true
      (by decide) (by decide) right_angle_get_connection⟩

/-!  Model of src/curve/renderer.rs: the duplicated tessellator. -/

/-- Model of `make_line` (src/curve/renderer.rs lines 159-167). -/
def make_line (start endp : Vec2) : Geo.Line := ⟨start, endp⟩

namespace ConnectionRenderer

/-- Model of `ConnectionRenderer::offset_by_direction`
(src/curve/renderer.rs lines 151-156). -/
def offset_by_direction (point direction : Vec2) : Vec2 × Vec2 :=
  (point + vec2 direction.y (-direction.x),
   point + vec2 (-direction.y) direction.x)

/-- Model of `ConnectionRenderer::get_start_points`
(src/curve/renderer.rs lines 131-139). -/
def get_start_points (line : PolyLine) (i : ℕ) (width : ℚ) : Vec2 × Vec2 :=
  if i + 1 = line.points.length then PolyLine.panic_pair
  else
    offset_by_direction (line.points.getD i vec2_zero)
      ((line.points.getD (i + 1) vec2_zero - line.points.getD i vec2_zero).normalize * width)

/-- Model of `ConnectionRenderer::get_end_points`
(src/curve/renderer.rs lines 141-149). -/
def get_end_points (line : PolyLine) (i : ℕ) (width : ℚ) : Vec2 × Vec2 :=
  if i = 0 then PolyLine.panic_pair
  else
    offset_by_direction (line.points.getD i vec2_zero)
      ((line.points.getD i vec2_zero - line.points.getD (i - 1) vec2_zero).normalize * width)

/-- The per-side intersection pair of `ConnectionRenderer::get_connection`
(src/curve/renderer.rs lines 99-118). -/
def connection_intersections (line : PolyLine) (i : ℕ) (width : ℚ) :
    Option Geo.LineIntersection × Option Geo.LineIntersection :=
  let start_points := get_start_points line (i - 1) width
  let end_points := get_end_points line i width
  let next_start_points := get_start_points line i width
  let next_end_points := get_end_points line (i + 1) width
  let lines := (make_line start_points.1 end_points.1, make_line start_points.2 end_points.2)
  let next_lines :=
    (make_line next_start_points.1 next_end_points.1,
     make_line next_start_points.2 next_end_points.2)
  (Geo.line_intersection lines.1 next_lines.1, Geo.line_intersection lines.2 next_lines.2)

/-- Model of the final match of `ConnectionRenderer::get_connection`
(src/curve/renderer.rs lines 120-128). -/
def get_connection (line : PolyLine) (i : ℕ) (width : ℚ) : Option (Vec2 × Bool) :=
  match connection_intersections line i width with
  | (some (Geo.LineIntersection.singlePoint intersection _), none) => some (intersection, false)
  | (none, some (Geo.LineIntersection.singlePoint intersection _)) => some (intersection, true)
  | _ => none

/-- Model of `ConnectionRenderer::get_adjusted_start_points`
(src/curve/renderer.rs lines 75-85). -/
def get_adjusted_start_points (line : PolyLine) (i : ℕ) (width : ℚ) : Vec2 × Vec2 :=
  let start_points := get_start_points line i width
  if i = 0 then start_points
  else
    match get_connection line i width with
    | some (intersection, false) => (intersection, start_points.2)
    | some (intersection, true) => (start_points.1, intersection)
    | none => start_points

/-- Model of `ConnectionRenderer::get_adjusted_end_points`
(src/curve/renderer.rs lines 87-97). -/
def get_adjusted_end_points (line : PolyLine) (i : ℕ) (width : ℚ) : Vec2 × Vec2 :=
  let end_points := get_end_points line i width
  if i + 1 = line.points.length then end_points
  else
    match get_connection line i width with
    | some (intersection, false) => (intersection, end_points.2)
    | some (intersection, true) => (end_points.1, intersection)
    | none => end_points

/-- Model of `ConnectionRenderer::get_segment_render_data`
(src/curve/renderer.rs lines 33-43). -/
def get_segment_render_data (line : PolyLine) (i : ℕ) (width : ℚ) : RenderData :=
  let start_points := get_adjusted_start_points line (i - 1) width
  let end_points := get_adjusted_end_points line i width
  { vertices :=
      [start_points.1, start_points.2, end_points.1, end_points.2].map Vertex.new_f64
    indices := [0, 2, 3, 0, 3, 1] }

/-- Model of `ConnectionRenderer::get_connection_render_data`
(src/curve/renderer.rs lines 45-73). -/
def get_connection_render_data (line : PolyLine) (i : ℕ) (width : ℚ) : RenderData :=
  let vertices :=
    (match get_connection line i width with
      | some (intersection, false) =>
          [(get_end_points line i width).2, intersection, (get_start_points line i width).2]
      | some (intersection, true) =>
          [(get_end_points line i width).1, intersection, (get_start_points line i width).1]
      | none => []).map Vertex.new_f64
  { vertices := vertices
    indices := if vertices.isEmpty then [] else [0, 1, 2] }

/-- Model of `ConnectionRenderer::render` (src/curve/renderer.rs lines 19-31). -/
def render (line : PolyLine) (width : ℚ) : RenderData :=
  let result := (List.range' 1 (line.points.length - 1)).foldl
    (fun result i => result.merge (get_segment_render_data line i width)) RenderData.new
  (List.range' 1 (line.points.length - 1 - 1)).foldl
    (fun result i => result.merge (get_connection_render_data line i width)) result

end ConnectionRenderer

/-- C10 — the two tessellator implementations coincide: for every polyline
with at least two points and pairwise-distinct consecutive points, and
every width, `ConnectionRenderer::render` and `PolyLine::get_render_data`
produce identical meshes.  (The two sources are line-for-line duplicates,
so the equality is definitional and holds for all inputs.) -/
theorem claim_C10_renderer_equivalence (l : PolyLine) (width : ℚ)
    (hlen : 2 ≤ l.points.length) (hdist : l.points.Chain' (· ≠ ·)) :
    ConnectionRenderer.render l width = l.get_render_data width := rfl

/-- Witness for C10 at the right-angle polyline with width 1. -/
theorem claim_C10_renderer_equivalence_witness :
    2 ≤ right_angle.points.length ∧
      right_angle.points.Chain' (· ≠ ·) ∧
      ConnectionRenderer.render right_angle 1 = right_angle.get_render_data 1 :=
  ⟨by decide,
    by norm_num [right_angle, List.chain'_cons, List.chain'_singleton, Vec2.mk.injEq],
    claim_C10_renderer_equivalence right_angle 1 (by decide)
      (by norm_num [right_angle, List.chain'_cons, List.chain'_singleton, Vec2.mk.injEq])⟩

/-!  Claim C9: straight-line (collinear) polylines.

The two sides of a straight joint carry mirrored offset configurations:
when the two segments' offset shifts agree, the side-`.1` configuration is
a translate of the side-`.0` one, and `line_intersection` produces results
of the same constructor under translation; when the shifts differ, each
side consists of parallel non-collinear boundary segments and both tests
answer `none`.  Either way `get_connection` answers `none`. -/

namespace Geo

/-- Translation of a segment by a vector. -/
def Line.translate (s : Line) (v : Vec2) : Line := ⟨s.start + v, s.endp + v⟩

/-- Constructor shape of an intersection result: 0 for `none`, 1 for a
single point, 2 for collinear overlap. -/
def li_shape : Option LineIntersection → ℕ
  | none => 0
  | some (LineIntersection.singlePoint _ _) => 1
  | some (LineIntersection.collinear _) => 2

theorem li_shape_ite (c : Prop) [Decidable c] (a b : Option LineIntersection) :
    li_shape (if c then a else b) = if c then li_shape a else li_shape b := by
  split_ifs <;> rfl

theorem li_shape_none : li_shape none = 0 := rfl

theorem li_shape_single (p : Vec2) (b : Bool) :
    li_shape (some (LineIntersection.singlePoint p b)) = 1 := rfl

theorem li_shape_collinear (s : Line) :
    li_shape (some (LineIntersection.collinear s)) = 2 := rfl

theorem vec2_add_right_cancel {a b v : Vec2} : a + v = b + v ↔ a = b := by
  obtain ⟨ax, ay⟩ := a
  obtain ⟨bx, by'⟩ := b
  simp only [Vec2.add_def, Vec2.mk.injEq, add_left_inj]

theorem orient2d_translate (a b c v : Vec2) :
    orient2d (a + v) (b + v) (c + v) = orient2d a b c := by
  unfold orient2d
  have h : ((b + v).x - (a + v).x) * ((c + v).y - (a + v).y) -
      ((b + v).y - (a + v).y) * ((c + v).x - (a + v).x) =
      (b.x - a.x) * (c.y - a.y) - (b.y - a.y) * (c.x - a.x) := by
    simp only [Vec2.add_def]
    ring
  rw [h]

theorem bounding_rect_translate (s : Line) (v : Vec2) :
    (s.translate v).bounding_rect =
      ⟨s.bounding_rect.min_x + v.x, s.bounding_rect.min_y + v.y,
       s.bounding_rect.max_x + v.x, s.bounding_rect.max_y + v.y⟩ := by
  simp only [Line.translate, Line.bounding_rect, Vec2.add_def, min_add_add_right,
    max_add_add_right]

theorem intersects_rect_translate (s t : Line) (v : Vec2) :
    ((s.translate v).bounding_rect.intersects_rect (t.translate v).bounding_rect) ↔
      s.bounding_rect.intersects_rect t.bounding_rect := by
  simp only [bounding_rect_translate, Rect.intersects_rect, add_le_add_iff_right]

theorem intersects_coord_translate (s : Line) (c v : Vec2) :
    ((s.translate v).bounding_rect.intersects_coord (c + v)) ↔
      s.bounding_rect.intersects_coord c := by
  simp only [bounding_rect_translate, Rect.intersects_coord, Vec2.add_def,
    add_le_add_iff_right]

theorem collinear_intersection_shape_translate (p q : Line) (v : Vec2) :
    li_shape (collinear_intersection (p.translate v) (q.translate v)) =
      li_shape (collinear_intersection p q) := by
  unfold collinear_intersection
  have hs : (q.translate v).start = q.start + v := rfl
  have he : (q.translate v).endp = q.endp + v := rfl
  have hps : (p.translate v).start = p.start + v := rfl
  have hpe : (p.translate v).endp = p.endp + v := rfl
  simp only [hs, he, hps, hpe, intersects_coord_translate, vec2_add_right_cancel]
  by_cases h1 : p.bounding_rect.intersects_coord q.start <;>
    by_cases h2 : p.bounding_rect.intersects_coord q.endp <;>
    by_cases h3 : q.bounding_rect.intersects_coord p.start <;>
    by_cases h4 : q.bounding_rect.intersects_coord p.endp <;>
    by_cases e1 : q.start = p.start <;>
    by_cases e2 : q.start = p.endp <;>
    by_cases e3 : q.endp = p.start <;>
    by_cases e4 : q.endp = p.endp <;>
    simp [h1, h2, h3, h4, e1, e2, e3, e4, li_shape_ite, li_shape_none,
      li_shape_single, li_shape_collinear, ite_self]

theorem line_intersection_shape_translate (p q : Line) (v : Vec2) :
    li_shape (line_intersection (p.translate v) (q.translate v)) =
      li_shape (line_intersection p q) := by
  unfold line_intersection
  have hs : (q.translate v).start = q.start + v := rfl
  have he : (q.translate v).endp = q.endp + v := rfl
  have hps : (p.translate v).start = p.start + v := rfl
  have hpe : (p.translate v).endp = p.endp + v := rfl
  simp only [hs, he, hps, hpe, intersects_rect_translate, orient2d_translate,
    vec2_add_right_cancel]
  by_cases hbox : p.bounding_rect.intersects_rect q.bounding_rect <;>
    rcases hq1 : orient2d p.start p.endp q.start <;>
    rcases hq2 : orient2d p.start p.endp q.endp <;>
    rcases hp1 : orient2d q.start q.endp p.start <;>
    rcases hp2 : orient2d q.start q.endp p.endp <;>
    simp [hbox, hq1, hq2, hp1, hp2, li_shape_ite, li_shape_none,
      li_shape_single, li_shape_collinear, ite_self,
      collinear_intersection_shape_translate p q v]

end Geo

/-- `orient2d` as an explicit sign test on the cross product. -/
theorem orient2d_cases (a b c : Vec2) :
    Geo.orient2d a b c =
      (if 0 < (b.x - a.x) * (c.y - a.y) - (b.y - a.y) * (c.x - a.x) then
        Geo.Orientation.counterClockwise
      else if (b.x - a.x) * (c.y - a.y) - (b.y - a.y) * (c.x - a.x) < 0 then
        Geo.Orientation.clockwise
      else Geo.Orientation.collinear) := rfl

/-- Two parallel segments whose supporting lines are distinct never
intersect: both endpoints of `q` fall strictly on one side of `p`'s line,
so the orientation straddle test (or already the bounding-box test)
reports no intersection. -/
theorem line_intersection_parallel_offset (p q : Geo.Line)
    (hpar : (p.endp.x - p.start.x) * (q.endp.y - q.start.y) -
        (p.endp.y - p.start.y) * (q.endp.x - q.start.x) = 0)
    (hoff : (p.endp.x - p.start.x) * (q.start.y - p.start.y) -
        (p.endp.y - p.start.y) * (q.start.x - p.start.x) ≠ 0) :
    Geo.line_intersection p q = none := by
  unfold Geo.line_intersection
  by_cases hbox : p.bounding_rect.intersects_rect q.bounding_rect
  · have key : (p.endp.x - p.start.x) * (q.endp.y - p.start.y) -
        (p.endp.y - p.start.y) * (q.endp.x - p.start.x) =
        (p.endp.x - p.start.x) * (q.start.y - p.start.y) -
        (p.endp.y - p.start.y) * (q.start.x - p.start.x) := by
      linear_combination hpar
    rcases hoff.lt_or_lt with hneg | hpos
    · have h1 : Geo.orient2d p.start p.endp q.start = Geo.Orientation.clockwise := by
        rw [orient2d_cases, if_neg (by linarith), if_pos hneg]
      have h2 : Geo.orient2d p.start p.endp q.endp = Geo.Orientation.clockwise := by
        rw [orient2d_cases, if_neg (by rw [key]; linarith), if_pos (by rw [key]; exact hneg)]
      simp [hbox, h1, h2]
    · have h1 : Geo.orient2d p.start p.endp q.start = Geo.Orientation.counterClockwise := by
        rw [orient2d_cases, if_pos hpos]
      have h2 : Geo.orient2d p.start p.endp q.endp = Geo.Orientation.counterClockwise := by
        rw [orient2d_cases, if_pos (by rw [key]; exact hpos)]
      simp [hbox, h1, h2]
  · simp [hbox]

/-- `connection_intersections` at the single interior joint of a 3-point
polyline, written out in terms of the four offset boundary segments. -/
theorem connection_intersections_three (p0 p1 p2 : Vec2) (w : ℚ) :
    PolyLine.connection_intersections ⟨[p0, p1, p2]⟩ 1 w =
      (Geo.line_intersection
        ⟨p0 + vec2 ((p1 - p0).normalize * w).y (-((p1 - p0).normalize * w).x),
         p1 + vec2 ((p1 - p0).normalize * w).y (-((p1 - p0).normalize * w).x)⟩
        ⟨p1 + vec2 ((p2 - p1).normalize * w).y (-((p2 - p1).normalize * w).x),
         p2 + vec2 ((p2 - p1).normalize * w).y (-((p2 - p1).normalize * w).x)⟩,
       Geo.line_intersection
        ⟨p0 + vec2 (-((p1 - p0).normalize * w).y) ((p1 - p0).normalize * w).x,
         p1 + vec2 (-((p1 - p0).normalize * w).y) ((p1 - p0).normalize * w).x⟩
        ⟨p1 + vec2 (-((p2 - p1).normalize * w).y) ((p2 - p1).normalize * w).x,
         p2 + vec2 (-((p2 - p1).normalize * w).y) ((p2 - p1).normalize * w).x⟩) := by
  have g0 : ([p0, p1, p2] : List Vec2).getD 0 vec2_zero = p0 := rfl
  have g1 : ([p0, p1, p2] : List Vec2).getD 1 vec2_zero = p1 := rfl
  have g2 : ([p0, p1, p2] : List Vec2).getD 2 vec2_zero = p2 := rfl
  simp only [PolyLine.connection_intersections, PolyLine.get_start_points,
    PolyLine.get_end_points, PolyLine.offset_by_direction, PolyLine.line,
    g0, g1, g2, List.length_cons, List.length_nil]
  norm_num

/-- At the interior joint of a 3-point polyline whose segments are
parallel (second direction = `lam` times the first), `get_connection`
answers `none`: when the two offset shifts differ, each side's boundary
segments are parallel with distinct supporting lines (both tests `none`);
when they agree, the side-`.1` configuration is a translate of the
side-`.0` one, so the two tests return results of the same constructor
and the one-side-only match fails either way. -/
theorem collinear_get_connection_none (p0 p1 p2 : Vec2) (w lam : ℚ)
    (hlam : p2 - p1 = (p1 - p0) * lam)
    (hd : ¬p1 - p0 = vec2_zero) :
    PolyLine.get_connection ⟨[p0, p1, p2]⟩ 1 w = none := by
  set E : Vec2 := vec2 (p1 - p0).y (-(p1 - p0).x) with hE
  have hlx : p2.x - p1.x = (p1.x - p0.x) * lam := by
    have := congrArg Vec2.x hlam
    simpa [Vec2.sub_def, Vec2.smul_def] using this
  have hly : p2.y - p1.y = (p1.y - p0.y) * lam := by
    have := congrArg Vec2.y hlam
    simpa [Vec2.sub_def, Vec2.smul_def] using this
  have hpx : (p2 - p1).x = (p1 - p0).x * lam := by
    rw [hlam, Vec2.smul_def]
  have hpy : (p2 - p1).y = (p1 - p0).y * lam := by
    rw [hlam, Vec2.smul_def]
  have hsq : 0 < (p1.x - p0.x) ^ 2 + (p1.y - p0.y) ^ 2 := by
    have hne : p1.x - p0.x ≠ 0 ∨ p1.y - p0.y ≠ 0 := by
      by_contra hcon
      push_neg at hcon
      refine hd ?_
      simp only [vec2_zero, Vec2.sub_def, Vec2.mk.injEq]
      exact ⟨by linarith [hcon.1], by linarith [hcon.2]⟩
    rcases hne with h | h <;> positivity
  obtain ⟨c1, hc1, hc1'⟩ :
      ∃ c : ℚ, vec2 ((p1 - p0).normalize * w).y (-((p1 - p0).normalize * w).x) = E * c ∧
        vec2 (-((p1 - p0).normalize * w).y) ((p1 - p0).normalize * w).x = E * (-c) := by
    refine ⟨1 / (p1 - p0).magnitude * w, ?_, ?_⟩ <;>
      · simp only [hE, Vec2.normalize, Vec2.smul_def, vec2, Vec2.mk.injEq]
        constructor <;> ring
  obtain ⟨c2, hc2, hc2'⟩ :
      ∃ c : ℚ, vec2 ((p2 - p1).normalize * w).y (-((p2 - p1).normalize * w).x) = E * c ∧
        vec2 (-((p2 - p1).normalize * w).y) ((p2 - p1).normalize * w).x = E * (-c) := by
    refine ⟨lam * (1 / (p2 - p1).magnitude * w), ?_, ?_⟩
    · simp only [hE, Vec2.normalize, Vec2.smul_def, vec2, Vec2.mk.injEq]
      constructor
      · linear_combination (1 / (p2 - p1).magnitude * w) * hpy
      · linear_combination (-(1 / (p2 - p1).magnitude * w)) * hpx
    · simp only [hE, Vec2.normalize, Vec2.smul_def, vec2, Vec2.mk.injEq]
      constructor
      · linear_combination (-(1 / (p2 - p1).magnitude * w)) * hpy
      · linear_combination (1 / (p2 - p1).magnitude * w) * hpx
  unfold PolyLine.get_connection
  rw [connection_intersections_three, hc1, hc1', hc2, hc2']
  by_cases hcc : c1 = c2
  · rw [← hcc]
    have hP : (Geo.Line.mk (p0 + E * c1) (p1 + E * c1)).translate (E * (-(2 * c1))) =
        (⟨p0 + E * (-c1), p1 + E * (-c1)⟩ : Geo.Line) := by
      simp only [Geo.Line.translate, Geo.Line.mk.injEq, hE, Vec2.add_def, Vec2.smul_def,
        vec2, Vec2.mk.injEq]
      refine ⟨⟨by ring, by ring⟩, by ring, by ring⟩
    have hQ : (Geo.Line.mk (p1 + E * c1) (p2 + E * c1)).translate (E * (-(2 * c1))) =
        (⟨p1 + E * (-c1), p2 + E * (-c1)⟩ : Geo.Line) := by
      simp only [Geo.Line.translate, Geo.Line.mk.injEq, hE, Vec2.add_def, Vec2.smul_def,
        vec2, Vec2.mk.injEq]
      refine ⟨⟨by ring, by ring⟩, by ring, by ring⟩
    have hsh := Geo.line_intersection_shape_translate
      ⟨p0 + E * c1, p1 + E * c1⟩ ⟨p1 + E * c1, p2 + E * c1⟩ (E * (-(2 * c1)))
    rw [hP, hQ] at hsh
    revert hsh
    rcases Geo.line_intersection ⟨p0 + E * c1, p1 + E * c1⟩ ⟨p1 + E * c1, p2 + E * c1⟩ with
        _ | (⟨pt0, ip0⟩ | ⟨s0⟩) <;>
      rcases Geo.line_intersection ⟨p0 + E * (-c1), p1 + E * (-c1)⟩
          ⟨p1 + E * (-c1), p2 + E * (-c1)⟩ with _ | (⟨pt1, ip1⟩ | ⟨s1⟩) <;>
      intro hsh <;>
      first
        | rfl
        | simp [Geo.li_shape] at hsh
  · have h0 : Geo.line_intersection ⟨p0 + E * c1, p1 + E * c1⟩
        ⟨p1 + E * c2, p2 + E * c2⟩ = none := by
      refine line_intersection_parallel_offset _ _ ?_ ?_
      · simp only [hE, Vec2.add_def, Vec2.smul_def, vec2]
        linear_combination (p1.x - p0.x) * hly - (p1.y - p0.y) * hlx
      · simp only [hE, Vec2.add_def, Vec2.smul_def, vec2]
        intro hzero
        have hfac : ((p1.x + (p1 - p0).y * c1) - (p0.x + (p1 - p0).y * c1)) *
              ((p1.y + -(p1 - p0).x * c2) - (p0.y + -(p1 - p0).x * c1)) -
            ((p1.y + -(p1 - p0).x * c1) - (p0.y + -(p1 - p0).x * c1)) *
              ((p1.x + (p1 - p0).y * c2) - (p0.x + (p1 - p0).y * c1)) =
            (c1 - c2) * ((p1.x - p0.x) ^ 2 + (p1.y - p0.y) ^ 2) := by
          simp only [Vec2.sub_def]
          ring
        rw [hfac] at hzero
        rcases mul_eq_zero.mp hzero with h | h
        · exact hcc (by linarith)
        · linarith
    have h1 : Geo.line_intersection ⟨p0 + E * (-c1), p1 + E * (-c1)⟩
        ⟨p1 + E * (-c2), p2 + E * (-c2)⟩ = none := by
      refine line_intersection_parallel_offset _ _ ?_ ?_
      · simp only [hE, Vec2.add_def, Vec2.smul_def, vec2]
        linear_combination (p1.x - p0.x) * hly - (p1.y - p0.y) * hlx
      · simp only [hE, Vec2.add_def, Vec2.smul_def, vec2]
        intro hzero
        have hfac : ((p1.x + (p1 - p0).y * -c1) - (p0.x + (p1 - p0).y * -c1)) *
              ((p1.y + -(p1 - p0).x * -c2) - (p0.y + -(p1 - p0).x * -c1)) -
            ((p1.y + -(p1 - p0).x * -c1) - (p0.y + -(p1 - p0).x * -c1)) *
              ((p1.x + (p1 - p0).y * -c2) - (p0.x + (p1 - p0).y * -c1)) =
            (c2 - c1) * ((p1.x - p0.x) ^ 2 + (p1.y - p0.y) ^ 2) := by
          simp only [Vec2.sub_def]
          ring
        rw [hfac] at hzero
        rcases mul_eq_zero.mp hzero with h | h
        · exact hcc (by linarith)
        · linarith
    rw [h0, h1]

/-- A collinear triple with a nonzero first leg has its second leg a
scalar multiple of the first. -/
theorem exists_lam (p0 p1 p2 : Vec2)
    (hcol : (p1.x - p0.x) * (p2.y - p1.y) - (p1.y - p0.y) * (p2.x - p1.x) = 0)
    (hd : ¬p1 - p0 = vec2_zero) :
    ∃ lam : ℚ, p2 - p1 = (p1 - p0) * lam := by
  by_cases hx : p1.x - p0.x = 0
  · have hy : p1.y - p0.y ≠ 0 := by
      intro hy
      refine hd ?_
      simp only [vec2_zero, Vec2.sub_def, Vec2.mk.injEq]
      exact ⟨by linarith, by linarith⟩
    refine ⟨(p2.y - p1.y) / (p1.y - p0.y), ?_⟩
    simp only [Vec2.sub_def, Vec2.smul_def, Vec2.mk.injEq]
    constructor
    · field_simp
      linear_combination -hcol
    · field_simp
  · refine ⟨(p2.x - p1.x) / (p1.x - p0.x), ?_⟩
    simp only [Vec2.sub_def, Vec2.smul_def, Vec2.mk.injEq]
    constructor
    · field_simp
    · field_simp
      linear_combination hcol

/-- C9 — a perfectly collinear 3-point polyline (distinct consecutive
points, positive width) tessellates into exactly the two segment quads
(8 vertices, 6 indices each, built from the *unadjusted* offset points)
with no joint fill triangle: the joint's intersection tests resolve to the
no-snap, no-fill branch of `get_connection`. -/
theorem claim_C9_collinear_no_fill (p0 p1 p2 : Vec2) (w : ℚ) (hw : 0 < w)
    (hcol : (p1.x - p0.x) * (p2.y - p1.y) - (p1.y - p0.y) * (p2.x - p1.x) = 0)
    (h01 : p0 ≠ p1) (h12 : p1 ≠ p2) :
    PolyLine.get_render_data ⟨[p0, p1, p2]⟩ w =
      { vertices :=
          [(PolyLine.get_start_points ⟨[p0, p1, p2]⟩ 0 w).1,
           (PolyLine.get_start_points ⟨[p0, p1, p2]⟩ 0 w).2,
           (PolyLine.get_end_points ⟨[p0, p1, p2]⟩ 1 w).1,
           (PolyLine.get_end_points ⟨[p0, p1, p2]⟩ 1 w).2,
           (PolyLine.get_start_points ⟨[p0, p1, p2]⟩ 1 w).1,
           (PolyLine.get_start_points ⟨[p0, p1, p2]⟩ 1 w).2,
           (PolyLine.get_end_points ⟨[p0, p1, p2]⟩ 2 w).1,
           (PolyLine.get_end_points ⟨[p0, p1, p2]⟩ 2 w).2].map Vertex.new_f64
        indices := [0, 2, 3, 0, 3, 1, 4, 6, 7, 4, 7, 5] } := by
  have hd : ¬p1 - p0 = vec2_zero := by
    intro h
    refine h01 ?_
    have hx := congrArg Vec2.x h
    have hy := congrArg Vec2.y h
    simp only [Vec2.sub_def, vec2_zero] at hx hy
    obtain ⟨ax, ay⟩ := p0
    obtain ⟨bx, by'⟩ := p1
    simp only [Vec2.mk.injEq]
    simp only at hx hy
    exact ⟨by linarith, by linarith⟩
  obtain ⟨lam, hlam⟩ := exists_lam p0 p1 p2 hcol hd
  have hconn := collinear_get_connection_none p0 p1 p2 w lam hlam hd
  have hcrd : PolyLine.get_connection_render_data ⟨[p0, p1, p2]⟩ 1 w = ⟨[], []⟩ := by
    simp [PolyLine.get_connection_render_data, hconn]
  have hadjs0 : PolyLine.get_adjusted_start_points ⟨[p0, p1, p2]⟩ 0 w =
      PolyLine.get_start_points ⟨[p0, p1, p2]⟩ 0 w := by
    simp [PolyLine.get_adjusted_start_points]
  have hadjs1 : PolyLine.get_adjusted_start_points ⟨[p0, p1, p2]⟩ 1 w =
      PolyLine.get_start_points ⟨[p0, p1, p2]⟩ 1 w := by
    simp [PolyLine.get_adjusted_start_points, hconn]
  have hadje1 : PolyLine.get_adjusted_end_points ⟨[p0, p1, p2]⟩ 1 w =
      PolyLine.get_end_points ⟨[p0, p1, p2]⟩ 1 w := by
    simp [PolyLine.get_adjusted_end_points, hconn]
  have hadje2 : PolyLine.get_adjusted_end_points ⟨[p0, p1, p2]⟩ 2 w =
      PolyLine.get_end_points ⟨[p0, p1, p2]⟩ 2 w := by
    simp [PolyLine.get_adjusted_end_points]
  unfold PolyLine.get_render_data
  have hr1 : List.range' 1 ((⟨[p0, p1, p2]⟩ : PolyLine).points.length - 1) = [1, 2] := rfl
  have hr2 : List.range' 1 ((⟨[p0, p1, p2]⟩ : PolyLine).points.length - 1 - 1) = [1] := rfl
  rw [hr1, hr2]
  simp only [List.foldl_cons, List.foldl_nil, PolyLine.get_segment_render_data]
  norm_num [hadjs0, hadjs1, hadje1, hadje2, hcrd, RenderData.merge, RenderData.new]

/-- Witness for C9 at the collinear polyline ((0,0),(1,0),(2,0)) with
width 1. -/
theorem claim_C9_collinear_no_fill_witness :
    (0 : ℚ) < 1 ∧
      PolyLine.get_render_data ⟨[⟨0, 0⟩, ⟨1, 0⟩, ⟨2, 0⟩]⟩ 1 =
        { vertices :=
            [(PolyLine.get_start_points ⟨[⟨0, 0⟩, ⟨1, 0⟩, ⟨2, 0⟩]⟩ 0 1).1,
             (PolyLine.get_start_points ⟨[⟨0, 0⟩, ⟨1, 0⟩, ⟨2, 0⟩]⟩ 0 1).2,
             (PolyLine.get_end_points ⟨[⟨0, 0⟩, ⟨1, 0⟩, ⟨2, 0⟩]⟩ 1 1).1,
             (PolyLine.get_end_points ⟨[⟨0, 0⟩, ⟨1, 0⟩, ⟨2, 0⟩]⟩ 1 1).2,
             (PolyLine.get_start_points ⟨[⟨0, 0⟩, ⟨1, 0⟩, ⟨2, 0⟩]⟩ 1 1).1,
             (PolyLine.get_start_points ⟨[⟨0, 0⟩, ⟨1, 0⟩, ⟨2, 0⟩]⟩ 1 1).2,
             (PolyLine.get_end_points ⟨[⟨0, 0⟩, ⟨1, 0⟩, ⟨2, 0⟩]⟩ 2 1).1,
             (PolyLine.get_end_points ⟨[⟨0, 0⟩, ⟨1, 0⟩, ⟨2, 0⟩]⟩ 2 1).2].map Vertex.new_f64
          indices := [0, 2, 3, 0, 3, 1, 4, 6, 7, 4, 7, 5] } :=
  ⟨by norm_num,
    claim_C9_collinear_no_fill ⟨0, 0⟩ ⟨1, 0⟩ ⟨2, 0⟩ 1 (by norm_num) (by norm_num)
      (by decide) (by decide)⟩
